import Mathlib

/-!
Verification of the Adaptive Execution Layer of the xiaoyuzhou automation
tool: the credential vault (src/storage/crypto.ts, src/storage/token.ts),
the strategy engine (src/strategy/engine.ts), the adapter base class
(src/adapters/base.ts) and the authentication manager.

The TypeScript source is embedded shallowly:
* pure methods become Lean functions;
* mutation of `this` becomes explicit state passing;
* `async` methods that can reject become `Except String`-valued functions;
* the Node `crypto` primitives (PBKDF2, AES-256-GCM) are modelled at two
  levels of fidelity, documented at each definition:
  - `IdealCrypto`: the key-derivation function is collision-free and the
    GCM authentication tag binds key, IV and ciphertext exactly (the
    standard symbolic model of an AEAD; the real primitives satisfy this
    except with negligible probability);
  - `CryptoBytes`: the exact byte-level framing of crypto.ts —
    `salt(64) || iv(16) || tag(16) || ciphertext` — with concrete
    deterministic stand-ins for the keyed primitives.  Base64
    encoding/decoding is a bijection between blobs and byte arrays, so a
    blob is represented directly by its decoded byte list.
-/

-- =====================================================
-- IdealCrypto: symbolic model of src/storage/crypto.ts
-- =====================================================

namespace IdealCrypto

/-- A key derived by `crypto.pbkdf2Sync(password, salt, 100000, 32, 'sha256')`
(crypto.ts `deriveKey`).  PBKDF2 is modelled as an ideal (collision-free)
KDF: the derived key is determined by, and determines, the
(password, salt) pair. -/
structure DerivedKey where
  password : String
  salt : Nat
deriving DecidableEq, Repr

/-- crypto.ts `deriveKey`. -/
def deriveKey (password : String) (salt : Nat) : DerivedKey :=
  ⟨password, salt⟩

/-- An AES-256-GCM ciphertext, symbolically: it is determined by the key,
the IV and the plaintext that produced it. -/
structure GcmCiphertext where
  key : DerivedKey
  iv : Nat
  plaintext : String
deriving DecidableEq, Repr

/-- The 16-byte GCM authentication tag returned by `cipher.getAuthTag()`:
a MAC binding the key, the IV and the ciphertext. -/
structure GcmTag where
  key : DerivedKey
  iv : Nat
  ct : GcmCiphertext
deriving DecidableEq, Repr

/-- The value encoded by crypto.ts `encrypt` as
`base64(salt || iv || tag || ciphertext)`; the four components are kept
symbolic here (the byte-level framing is `CryptoBytes.encrypt`). -/
structure EncryptedBlob where
  salt : Nat
  iv : Nat
  tag : GcmTag
  ct : GcmCiphertext
deriving DecidableEq, Repr

/-- CryptoUtil.encrypt (crypto.ts lines 43-80): generate salt and iv
(passed in here — the source draws them from `crypto.randomBytes`),
derive the key, GCM-encrypt, read the auth tag, and combine
salt, iv, tag and ciphertext into the stored blob. -/
def encrypt (data : String) (password : String) (salt iv : Nat) : EncryptedBlob :=
  let key := deriveKey password salt
  let ct : GcmCiphertext := ⟨key, iv, data⟩
  let tag : GcmTag := ⟨key, iv, ct⟩
  ⟨salt, iv, tag, ct⟩

/-- The plaintext produced by `decipher.update`/`decipher.final` once the
tag has verified: symbolic GCM decryption inverts encryption under the
matching key and IV. -/
def gcmDecrypt (key : DerivedKey) (iv : Nat) (ct : GcmCiphertext) : String :=
  if ct.key = key ∧ ct.iv = iv then ct.plaintext else ""

/-- CryptoUtil.decrypt (crypto.ts lines 85-119): split the blob, derive
the key from the stored salt and the supplied password, and GCM-decrypt.
`decipher.final()` throws when the authentication tag does not verify
under the derived key and stored IV; the surrounding catch rethrows the
fixed error message, so no partially decrypted data escapes. -/
def decrypt (blob : EncryptedBlob) (password : String) : Except String String :=
  let key := deriveKey password blob.salt
  if blob.tag = ⟨key, blob.iv, blob.ct⟩ then
    .ok (gcmDecrypt key blob.iv blob.ct)
  else
    .error "Failed to decrypt data - invalid password or corrupted data"

end IdealCrypto

-- =====================================================
-- CryptoBytes: byte-level model of src/storage/crypto.ts
-- =====================================================

namespace CryptoBytes

/-- crypto.ts `SALT_LENGTH`. -/
def SALT_LENGTH : Nat := 64

/-- crypto.ts `IV_LENGTH`. -/
def IV_LENGTH : Nat := 16

/-- crypto.ts `TAG_LENGTH`. -/
def TAG_LENGTH : Nat := 16

/-- crypto.ts `KEY_LENGTH`. -/
def KEY_LENGTH : Nat := 32

/-- Numeric digest of a string, used by the concrete stand-ins below. -/
def strCode (s : String) : Nat :=
  s.toList.foldl (fun a c => a * 131 + c.toNat) 7

/-- crypto.ts `deriveKey` (`crypto.pbkdf2Sync(password, salt, 100000, 32,
'sha256')`) at the byte level: a deterministic 32-byte key computed from
the password and the salt.  The concrete mixing below is a stand-in for
PBKDF2-SHA256; the development only relies on it being a deterministic
function of (password, salt). -/
def deriveKey (password : String) (salt : List Nat) : List Nat :=
  (List.range KEY_LENGTH).map
    (fun i => (strCode password + 7 * salt.sum + 131 * i) % 256)

/-- Byte `i` of the AES-256-CTR keystream used by GCM, as a deterministic
function of key and IV (stand-in for the block cipher). -/
def keystream (key iv : List Nat) (i : Nat) : Nat :=
  (key.sum + 3 * iv.sum + 17 * i) % 256

/-- `cipher.update`/`cipher.final`: GCM encrypts by combining the
plaintext with the keystream byte-for-byte. -/
def gcmEncrypt (key iv : List Nat) (data : List Nat) : List Nat :=
  (List.range data.length).zipWith (fun i b => (b + keystream key iv i) % 256) data

/-- `decipher.update`/`decipher.final` after a successful tag check:
the inverse byte-for-byte combination. -/
def gcmDecryptBytes (key iv : List Nat) (data : List Nat) : List Nat :=
  (List.range data.length).zipWith (fun i b => (b + 256 - keystream key iv i) % 256) data

/-- `cipher.getAuthTag()`: the 16-byte GCM tag, a deterministic MAC of
key, IV and ciphertext (stand-in for GHASH). -/
def gcmTag (key iv ct : List Nat) : List Nat :=
  (List.range TAG_LENGTH).map
    (fun i => (5 * key.sum + iv.sum + 11 * ct.sum + 29 * ct.length + 7 * i) % 256)

/-- CryptoUtil.encrypt (crypto.ts lines 43-80) at the byte level: the
salt and IV are the 64 and 16 bytes drawn from `crypto.randomBytes`
(passed in as parameters); the result is the byte content of the base64
blob `salt || iv || tag || ciphertext`. -/
def encrypt (data : List Nat) (password : String) (salt iv : List Nat) : List Nat :=
  let key := deriveKey password salt
  let encrypted := gcmEncrypt key iv data
  let tag := gcmTag key iv encrypted
  salt ++ iv ++ tag ++ encrypted

/-- CryptoUtil.decrypt (crypto.ts lines 85-119) at the byte level:
extract salt, iv, tag and ciphertext by offset exactly as the source's
`subarray` calls do, derive the key, verify the tag, and decrypt.  A tag
mismatch makes `decipher.final()` throw; the catch rethrows the fixed
message. -/
def decrypt (blob : List Nat) (password : String) : Except String (List Nat) :=
  let salt := blob.take SALT_LENGTH
  let iv := (blob.drop SALT_LENGTH).take IV_LENGTH
  let tag := (blob.drop (SALT_LENGTH + IV_LENGTH)).take TAG_LENGTH
  let encrypted := blob.drop (SALT_LENGTH + IV_LENGTH + TAG_LENGTH)
  let key := deriveKey password salt
  if gcmTag key iv encrypted = tag then
    .ok (gcmDecryptBytes key iv encrypted)
  else
    .error "Failed to decrypt data - invalid password or corrupted data"

/-- CryptoUtil.verifyIntegrity (crypto.ts lines 147-161): decode the
base64 blob and check it reaches the minimum length
`SALT_LENGTH + IV_LENGTH + TAG_LENGTH`. -/
def verifyIntegrity (blob : List Nat) : Bool :=
  if blob.length < SALT_LENGTH + IV_LENGTH + TAG_LENGTH then false else true

end CryptoBytes

-- =====================================================
-- TokenStorage: model of src/storage/token.ts `load`
-- =====================================================

namespace TokenStorage

/-- TokenStorage.load (token.ts lines 108-144).  The file system is the
content of `token.encrypted` (`none` = file absent); the result pairs the
value returned to the caller with the file state after the call.

The source JSON-parses the decrypted plaintext into a `StoredToken`; the
parse is omitted here and the raw decrypted bytes are returned, because a
parse failure lands in the same catch as a decryption failure (return
`null`, file untouched), so which branch deletes the file is unaffected.

Branches, in source order: missing file returns `null`; a blob failing
`verifyIntegrity` is cleared (`this.clear()` deletes the file) and `null`
is returned; a decryption failure is caught and `null` is returned with
the file left in place; otherwise the decrypted content is returned. -/
def load (file : Option (List Nat)) (password : String) :
    Option (List Nat) × Option (List Nat) :=
  match file with
  | none => (none, none)
  | some blob =>
    if CryptoBytes.verifyIntegrity blob = false then
      (none, none)
    else
      match CryptoBytes.decrypt blob password with
      | .ok plain => (some plain, some blob)
      | .error _ => (none, some blob)

end TokenStorage

-- =====================================================
-- Core result types (src/core/types.ts)
-- =====================================================

namespace Core

/-- types.ts `AdapterResult<T>`: `{success, data?, error?, errorCode?}`.
`errorCode` is typed `any` in `BaseAdapter.failure`; it is carried as an
opaque string here. -/
structure AdapterResult (α : Type) where
  success : Bool
  data : Option α
  error : Option String
  errorCode : Option String
deriving DecidableEq, Repr

/-- types.ts `PublishResult`: `{success, resourceId, publishedUrl?, error?}`. -/
structure PublishResult where
  success : Bool
  resourceId : String
  publishedUrl : Option String
  error : Option String
deriving DecidableEq, Repr

/-- types.ts `HealthCheckResult`: `{healthy, latency, error?}`. -/
structure HealthCheckResult where
  healthy : Bool
  latency : Nat
  error : Option String
deriving DecidableEq, Repr

/-- types.ts `AdapterType` enum: the Playwright (browser) adapter and the
HTTP (direct API) adapter. -/
inductive AdapterType
  | playwright
  | http
deriving DecidableEq, Repr

/-- The string value of the `AdapterType` enum member, as interpolated
into error messages. -/
def adapterName : AdapterType → String
  | .playwright => "playwright"
  | .http => "http"

end Core

-- =====================================================
-- BaseAdapter (src/adapters/base.ts)
-- =====================================================

namespace BaseAdapter

open Core

/-- BaseAdapter.success (base.ts lines 234-236). -/
def success {α : Type} (data : α) : AdapterResult α :=
  ⟨true, some data, none, none⟩

/-- BaseAdapter.failure (base.ts lines 241-243). -/
def failure {α : Type} (error : String) (errorCode : Option String) : AdapterResult α :=
  ⟨false, none, some error, errorCode⟩

/-- The loop body of BaseAdapter.publishResources (base.ts lines
183-196), returning the accumulated `results` and `errors` arrays.  The
`result.success && result.data` guard is success together with presence
of `data` (a present object is truthy). -/
def publishLoop (publishResource : String → AdapterResult PublishResult) :
    List String → List PublishResult × List String
  | [] => ([], [])
  | resourceId :: rest =>
    let result := publishResource resourceId
    let (restResults, restErrors) := publishLoop publishResource rest
    match result.success, result.data with
    | true, some d => (d :: restResults, restErrors)
    | _, _ =>
      (⟨false, resourceId, none, result.error⟩ :: restResults,
       (result.error.getD ("Failed to publish resource " ++ resourceId)) :: restErrors)

/-- BaseAdapter.publishResources (base.ts lines 179-203): sequential
per-item publishing; the per-item `publishResource` call is passed in as
a function (it is abstract in the source class). -/
def publishResources (publishResource : String → AdapterResult PublishResult)
    (resourceIds : List String) : AdapterResult (List PublishResult) :=
  let (results, errors) := publishLoop publishResource resourceIds
  { success := errors.length == 0
    data := some results
    error := if errors.length > 0 then some (String.intercalate "; " errors) else none
    errorCode := none }

end BaseAdapter

-- =====================================================
-- StrategyEngine (src/strategy/engine.ts)
-- =====================================================

namespace StrategyEngine

open Core

/-- engine.ts `StrategyMode` enum. -/
inductive StrategyMode
  | auto
  | playwright
  | http
  | playwrightOnly
  | httpOnly
deriving DecidableEq, Repr

/-- engine.ts `AdapterState` (lines 40-45), minus the adapter instance
itself: per-adapter health flag, probe timestamp and failure counter. -/
structure AdapterState where
  healthy : Bool
  lastHealthCheck : Nat
  consecutiveFailures : Nat
deriving DecidableEq, Repr

/-- The mutable state of a `StrategyEngine` instance: the `adapters` map
(whose two keys are both populated by the constructor, lines 79-91, and
never removed), `currentAdapter`, and the configuration fields the
embedded methods consult. -/
structure EngineState where
  playwrightState : AdapterState
  httpState : AdapterState
  currentAdapter : Option AdapterType
  mode : StrategyMode
  retryAttempts : Nat
deriving DecidableEq, Repr

/-- `this.adapters.get(type)` — both keys are always present. -/
def getAdapterState (s : EngineState) : AdapterType → AdapterState
  | .playwright => s.playwrightState
  | .http => s.httpState

/-- Writing back the mutated per-adapter record. -/
def setAdapterState (s : EngineState) : AdapterType → AdapterState → EngineState
  | .playwright, st => { s with playwrightState := st }
  | .http, st => { s with httpState := st }

/-- StrategyEngine.recordSuccess (engine.ts lines 260-266): reset the
failure counter and mark the adapter healthy. -/
def recordSuccess (s : EngineState) (t : AdapterType) : EngineState :=
  let st := getAdapterState s t
  setAdapterState s t { st with consecutiveFailures := 0, healthy := true }

/-- StrategyEngine.recordFailure (engine.ts lines 271-287): increment the
failure counter and mark the adapter unhealthy once it reaches 3. -/
def recordFailure (s : EngineState) (t : AdapterType) : EngineState :=
  let st := getAdapterState s t
  let n := st.consecutiveFailures + 1
  setAdapterState s t
    { st with
      consecutiveFailures := n
      healthy := if 3 ≤ n then false else st.healthy }

/-- StrategyEngine.checkAdapterHealth (engine.ts lines 292-317).  The
probe outcome of `state.adapter.healthCheck()` is supplied by `hc` (the
adapter implementations are outside the engine); `now` is `Date.now()`.
The `Adapter not found` branch is unreachable: both map keys exist. -/
def checkAdapterHealth (hc : AdapterType → HealthCheckResult) (now : Nat)
    (t : AdapterType) (s : EngineState) : HealthCheckResult × EngineState :=
  let st0 := getAdapterState s t
  let st1 := { st0 with lastHealthCheck := now }
  let result := hc t
  let st2 :=
    if result.healthy then
      { st1 with consecutiveFailures := 0, healthy := true }
    else
      let n := st1.consecutiveFailures + 1
      { st1 with
        consecutiveFailures := n
        healthy := if 3 ≤ n then false else st1.healthy }
  (result, setAdapterState s t st2)

/-- The `candidateTypes` list built by the switch in
StrategyEngine.selectBestAdapter (engine.ts lines 122-144); the `default`
case coincides with `AUTO`. -/
def candidateTypes : StrategyMode → List AdapterType
  | .playwrightOnly => [.playwright]
  | .httpOnly => [.http]
  | .playwright => [.playwright, .http]
  | .http => [.http, .playwright]
  | .auto => [.http, .playwright]

/-- The recovery loop of selectBestAdapter (engine.ts lines 166-172):
re-probe each candidate in order and stop at the first healthy one. -/
def probeCandidates (hc : AdapterType → HealthCheckResult) (now : Nat) :
    List AdapterType → EngineState → Option AdapterType × EngineState
  | [], s => (none, s)
  | t :: rest, s =>
    let (result, s') := checkAdapterHealth hc now t s
    if result.healthy then (some t, s') else probeCandidates hc now rest s'

/-- StrategyEngine.selectBestAdapter (engine.ts lines 118-177): walk the
mode's candidate list and pick the first adapter whose handle is marked
healthy; if none, actively re-probe each candidate in order; if still
none, fall back to the first candidate anyway.  The candidate list is
nonempty for every mode, so the `headD` default is never used. -/
def selectBestAdapter (hc : AdapterType → HealthCheckResult) (now : Nat)
    (s : EngineState) : AdapterType × EngineState :=
  let candidates := candidateTypes s.mode
  match candidates.find? (fun t => (getAdapterState s t).healthy) with
  | some t => (t, { s with currentAdapter := some t })
  | none =>
    match probeCandidates hc now candidates s with
    | (some t, s') => (t, { s' with currentAdapter := some t })
    | (none, s') =>
      let t := candidates.headD AdapterType.http
      (t, { s' with currentAdapter := some t })

/-- What one StrategyEngine.execute call produced: the returned value or
thrown error, the engine state afterwards, the sequence of adapters the
operation closure was invoked against (main attempts and fallback
attempts, in order), and the final value of the `attempts` counter. -/
structure ExecOutcome (α : Type) where
  result : Except String α
  state : EngineState
  calls : List AdapterType
  attempts : Nat
deriving Repr

/-- The `while (attempts < maxAttempts)` loop of StrategyEngine.execute
(engine.ts lines 209-252).  `remaining = maxAttempts - attempts` is the
loop fuel; `k` numbers the invocations of the operation closure so that
`op` can give each invocation its own outcome (a rejecting promise is an
`.error`).  In source order, each iteration:
`getCurrentAdapter()` (throws "No adapter selected" when `currentAdapter`
is null — caught by the catch like any operation failure, with
`recordFailure(undefined)` a no-op on the map); run the operation; on
success `recordSuccess` and return; on failure increment `attempts`,
`recordFailure`, optionally run the one-shot fallback against a healthy
Playwright handle (its own failure is swallowed), re-run
`selectBestAdapter`, and rethrow the main attempt's error once
`attempts >= maxAttempts`. -/
def executeGo {α : Type} (op : Nat → AdapterType → Except String α)
    (hc : AdapterType → HealthCheckResult) (now : Nat)
    (fallbackToPlaywright : Bool) :
    Nat → Nat → Nat → List AdapterType → EngineState → ExecOutcome α
  | 0, attempts, _, calls, s =>
    ⟨.error "Operation failed after retries", s, calls, attempts⟩
  | remaining + 1, attempts, k, calls, s =>
    match s.currentAdapter with
    | none =>
      let s2 := (selectBestAdapter hc now s).2
      if remaining = 0 then
        ⟨.error "No adapter selected", s2, calls, attempts + 1⟩
      else
        executeGo op hc now fallbackToPlaywright remaining (attempts + 1) k calls s2
    | some cur =>
      match op k cur with
      | .ok v => ⟨.ok v, recordSuccess s cur, calls ++ [cur], attempts⟩
      | .error e =>
        let s1 := recordFailure s cur
        let calls1 := calls ++ [cur]
        if fallbackToPlaywright = true ∧ cur = AdapterType.http then
          if (getAdapterState s1 AdapterType.playwright).healthy then
            match op (k + 1) AdapterType.playwright with
            | .ok v =>
              ⟨.ok v, recordSuccess s1 AdapterType.playwright,
                calls1 ++ [AdapterType.playwright], attempts + 1⟩
            | .error _ =>
              let s2 := (selectBestAdapter hc now s1).2
              if remaining = 0 then
                ⟨.error e, s2, calls1 ++ [AdapterType.playwright], attempts + 1⟩
              else
                executeGo op hc now fallbackToPlaywright remaining (attempts + 1)
                  (k + 2) (calls1 ++ [AdapterType.playwright]) s2
          else
            let s2 := (selectBestAdapter hc now s1).2
            if remaining = 0 then
              ⟨.error e, s2, calls1, attempts + 1⟩
            else
              executeGo op hc now fallbackToPlaywright remaining (attempts + 1)
                (k + 1) calls1 s2
        else
          let s2 := (selectBestAdapter hc now s1).2
          if remaining = 0 then
            ⟨.error e, s2, calls1, attempts + 1⟩
          else
            executeGo op hc now fallbackToPlaywright remaining (attempts + 1)
              (k + 1) calls1 s2

/-- StrategyEngine.execute (engine.ts lines 198-255): `maxAttempts` is
`retryAttempts` when `retryOnFailure` is set and 1 otherwise, and the
loop starts with `attempts = 0`. -/
def execute {α : Type} (op : Nat → AdapterType → Except String α)
    (hc : AdapterType → HealthCheckResult) (now : Nat)
    (fallbackToPlaywright retryOnFailure : Bool) (s : EngineState) : ExecOutcome α :=
  let maxAttempts := if retryOnFailure then s.retryAttempts else 1
  executeGo op hc now fallbackToPlaywright maxAttempts 0 0 [] s

/-- StrategyEngine.forceAdapter (engine.ts lines 350-369): the
`Unknown adapter type` throw is unreachable (both keys exist); when the
handle's cached `healthy` flag is false, a probe runs and an unhealthy
probe result throws; otherwise `currentAdapter` is switched. -/
def forceAdapter (hc : AdapterType → HealthCheckResult) (now : Nat)
    (t : AdapterType) (s : EngineState) : Except String EngineState :=
  let st := getAdapterState s t
  if st.healthy = false then
    let (result, s1) := checkAdapterHealth hc now t s
    if result.healthy = false then
      .error ("Adapter " ++ adapterName t ++ " is not healthy")
    else
      .ok { s1 with currentAdapter := some t }
  else
    .ok { s with currentAdapter := some t }

/-- An engine as the constructor plus `initialize` leave it in AUTO mode:
both handles healthy with zero failures (constructor, lines 79-91) and
`currentAdapter` set by the initial `selectBestAdapter` to HTTP. -/
def freshEngine (retryAttempts : Nat) : EngineState :=
  { playwrightState := ⟨true, 0, 0⟩
    httpState := ⟨true, 0, 0⟩
    currentAdapter := some AdapterType.http
    mode := StrategyMode.auto
    retryAttempts := retryAttempts }

end StrategyEngine

-- =====================================================
-- SessionStorage (src/storage/session.ts) and AuthManager
-- =====================================================

namespace Auth

/-- types.ts `LoginMethod` enum: `QR_CODE` and `PHONE_CODE` are its only
members. -/
inductive LoginMethod
  | qrCode
  | phoneCode
deriving DecidableEq, Repr

/-- `{userId, userName}` as stored in `user-info.json` and cached on the
manager. -/
structure UserInfo where
  userId : String
  userName : String
deriving DecidableEq, Repr

/-- types.ts `AuthResult`: `{success, userId?, userName?, error?}`. -/
structure AuthResult where
  success : Bool
  userId : Option String
  userName : Option String
  error : Option String
deriving DecidableEq, Repr

/-- The browser-session files owned by SessionStorage:
`browser-state.json` (existence is all `hasValidSession` checks) and
`user-info.json` (existence plus its parsed content — `storedUserInfo` is
`none` when the file is absent or unparseable). -/
structure SessionStore where
  browserStateFileExists : Bool
  userInfoFileExists : Bool
  storedUserInfo : Option UserInfo
deriving DecidableEq, Repr

/-- SessionStorage.hasValidSession (session.ts lines 377-379): both the
browser-state file and the user-info file exist. -/
def hasValidSession (st : SessionStore) : Bool :=
  st.browserStateFileExists && st.userInfoFileExists

/-- SessionStorage.loadUserInfo (session.ts lines 456-476): `none` when
the file is absent or unparseable. -/
def loadUserInfo (st : SessionStore) : Option UserInfo :=
  if st.userInfoFileExists then st.storedUserInfo else none

/-- The AuthManager fields `login` touches: the session storage and the
cached `this.userInfo`. -/
structure AuthManagerState where
  storage : SessionStore
  userInfo : Option UserInfo
deriving DecidableEq, Repr

/-- AuthManager.login (the authentication manager module, lines 69-146).
`flows method` is the outcome of the browser login flow `loginByQRCode` /
`loginByPhoneCode` for the requested method: whether it succeeded, and
the user info `extractUserInfo` left in `this.userInfo` (`none` when the
flow returned via the dashboard-URL path without extracting).  The
returned `Bool` reports whether a backend login flow was invoked (a
browser launched); it is `false` exactly on the short-circuit path.

Source order: when not forced and `sessionStorage.hasValidSession()`,
restore `this.userInfo` from `loadUserInfo` (kept unchanged when that
returns null) and report success without touching a backend; otherwise
run the flow for the method (the enum has no third member, so the
`Unsupported login method` default branch is unreachable), report
`Login failed` when it fails, and on success persist the browser state
and user info via `saveSession` before reporting success. -/
def login (flows : LoginMethod → Bool × Option UserInfo)
    (force : Bool) (method : LoginMethod) (m : AuthManagerState) :
    AuthResult × AuthManagerState × Bool :=
  if force = false ∧ hasValidSession m.storage = true then
    let m1 :=
      match loadUserInfo m.storage with
      | some u => { m with userInfo := some u }
      | none => m
    (⟨true, m1.userInfo.map UserInfo.userId, m1.userInfo.map UserInfo.userName, none⟩,
      m1, false)
  else
    let (loginSuccess, extracted) := flows method
    if loginSuccess = false then
      (⟨false, none, none, some "Login failed"⟩, m, true)
    else
      let m1 :=
        match extracted with
        | some u => { m with userInfo := some u }
        | none => m
      let st := m1.storage
      let st' :=
        { st with
          browserStateFileExists := true
          userInfoFileExists :=
            if m1.userInfo.isSome then true else st.userInfoFileExists
          storedUserInfo :=
            if m1.userInfo.isSome then m1.userInfo else st.storedUserInfo }
      (⟨true, m1.userInfo.map UserInfo.userId, m1.userInfo.map UserInfo.userName, none⟩,
        { m1 with storage := st' }, true)

end Auth

-- =====================================================
-- Concrete instances used by counterexamples and witnesses
-- =====================================================

namespace Examples

/-- A characterization of the entry `BaseAdapter.publishResources` pushes
onto `results` for one resource id, used to state the batch-publish
claim: the backend's own `PublishResult` on success, a synthesized failed
entry otherwise. -/
def publishEntry (publishResource : String → Core.AdapterResult Core.PublishResult)
    (resourceId : String) : Core.PublishResult :=
  match (publishResource resourceId).success, (publishResource resourceId).data with
  | true, some d => d
  | _, _ => ⟨false, resourceId, none, (publishResource resourceId).error⟩

/-- A per-item publisher for the batch scenario: publishing "b" fails,
every other id succeeds. -/
def publishB : String → Core.AdapterResult Core.PublishResult := fun resourceId =>
  if resourceId = "b" then BaseAdapter.failure "publish failed" none
  else BaseAdapter.success ⟨true, resourceId, some ("https://example.com/" ++ resourceId), none⟩

/-- A 64-byte salt as drawn by `crypto.randomBytes(SALT_LENGTH)`. -/
def exampleSalt : List Nat := (List.range 64).map (fun i => (3 * i) % 256)

/-- A 16-byte IV as drawn by `crypto.randomBytes(IV_LENGTH)`. -/
def exampleIv : List Nat := (List.range 16).map (fun i => (5 * i + 1) % 256)

/-- Plaintext bytes of a stored token record. -/
def examplePlain : List Nat := [1, 2, 3, 4, 5, 6, 7, 8]

/-- The machine-derived passphrase used by TokenStorage. -/
def examplePassword : String := "machine-key"

/-- The stored blob for the token scenarios: byte content of the vault
file after `save`. -/
def exampleBlob : List Nat :=
  CryptoBytes.encrypt examplePlain examplePassword exampleSalt exampleIv

/-- `exampleBlob` with the single byte at index 99 corrupted — index 99
lies strictly inside the ciphertext region, which starts at offset 96
(`salt(64) || iv(16) || tag(16)` precede it). -/
def exampleCorruptBlob : List Nat :=
  exampleBlob.set 99 ((exampleBlob.getD 99 0 + 1) % 256)

/-- A health probe that reports every adapter down. -/
def hcDown : Core.AdapterType → Core.HealthCheckResult := fun _ => ⟨false, 0, some "down"⟩

/-- A health probe that reports every adapter up. -/
def hcUp : Core.AdapterType → Core.HealthCheckResult := fun _ => ⟨true, 5, none⟩

/-- An engine whose HTTP handle is cached healthy although the adapter
itself would fail a probe (`hcDown`): exercises the forceAdapter path
that skips the probe. -/
def staleEngine : StrategyEngine.EngineState :=
  { playwrightState := ⟨true, 0, 0⟩
    httpState := ⟨true, 0, 0⟩
    currentAdapter := none
    mode := StrategyEngine.StrategyMode.auto
    retryAttempts := 3 }

/-- An AUTO-mode engine with the HTTP handle unhealthy and the
Playwright handle healthy. -/
def autoFallbackEngine : StrategyEngine.EngineState :=
  { playwrightState := ⟨true, 0, 0⟩
    httpState := ⟨false, 0, 4⟩
    currentAdapter := some Core.AdapterType.http
    mode := StrategyEngine.StrategyMode.auto
    retryAttempts := 3 }

/-- A session store holding a valid browser session for user u1. -/
def validStore : Auth.SessionStore :=
  { browserStateFileExists := true
    userInfoFileExists := true
    storedUserInfo := some ⟨"u1", "Alice"⟩ }

/-- Backend login flows that would succeed if invoked; the short-circuit
path must not consult them. -/
def exampleFlows : Auth.LoginMethod → Bool × Option Auth.UserInfo :=
  fun _ => (true, some ⟨"u2", "Bob"⟩)

end Examples

-- =====================================================
-- Helper lemmas
-- =====================================================

theorem getAdapterState_set (s : StrategyEngine.EngineState) (t : Core.AdapterType)
    (st : StrategyEngine.AdapterState) :
    StrategyEngine.getAdapterState (StrategyEngine.setAdapterState s t st) t = st := by
  cases t <;> rfl

theorem getAdapterState_recordFailure (s : StrategyEngine.EngineState)
    (t : Core.AdapterType) :
    StrategyEngine.getAdapterState (StrategyEngine.recordFailure s t) t =
      { StrategyEngine.getAdapterState s t with
        consecutiveFailures := (StrategyEngine.getAdapterState s t).consecutiveFailures + 1
        healthy :=
          if 3 ≤ (StrategyEngine.getAdapterState s t).consecutiveFailures + 1 then false
          else (StrategyEngine.getAdapterState s t).healthy } := by
  simp [StrategyEngine.recordFailure, getAdapterState_set]

theorem publishLoop_spec (pub : String → Core.AdapterResult Core.PublishResult) :
    ∀ ids : List String,
      (BaseAdapter.publishLoop pub ids).1 = ids.map (Examples.publishEntry pub) ∧
      ((BaseAdapter.publishLoop pub ids).2.length == 0) =
        ids.all (fun resourceId => (pub resourceId).success && (pub resourceId).data.isSome) := by
  intro ids
  induction ids with
  | nil => exact ⟨rfl, rfl⟩
  | cons resourceId rest ih =>
    cases hs : (pub resourceId).success <;> cases hd : (pub resourceId).data <;>
      simp [BaseAdapter.publishLoop, Examples.publishEntry, hs, hd, ih.1, ← ih.2]

theorem executeGo_error_attempts {α : Type} (op : Nat → Core.AdapterType → Except String α)
    (hc : Core.AdapterType → Core.HealthCheckResult) (now : Nat) (fb : Bool) :
    ∀ (r attempts k : Nat) (calls : List Core.AdapterType) (s : StrategyEngine.EngineState)
      (e : String),
      (StrategyEngine.executeGo op hc now fb r attempts k calls s).result =
        Except.error e →
      (StrategyEngine.executeGo op hc now fb r attempts k calls s).attempts = attempts + r := by
  intro r
  induction r with
  | zero =>
    intro attempts k calls s e _
    rfl
  | succ r ih =>
    intro attempts k calls s e h
    simp only [StrategyEngine.executeGo] at h ⊢
    cases hcur : s.currentAdapter with
    | none =>
      simp only [hcur] at h ⊢
      by_cases hr : r = 0
      · subst hr
        simp
      · simp only [if_neg hr] at h ⊢
        have := ih (attempts + 1) k calls _ e h
        omega
    | some cur =>
      simp only [hcur] at h ⊢
      cases hop : op k cur with
      | ok v =>
        simp only [hop] at h
        exact absurd h (by simp)
      | error e1 =>
        simp only [hop] at h ⊢
        by_cases hfb : fb = true ∧ cur = Core.AdapterType.http
        · simp only [if_pos hfb] at h ⊢
          cases hpw : (StrategyEngine.getAdapterState (StrategyEngine.recordFailure s cur)
              Core.AdapterType.playwright).healthy with
          | true =>
            simp only [hpw, if_true] at h ⊢
            cases hop2 : op (k + 1) Core.AdapterType.playwright with
            | ok v =>
              simp only [hop2] at h
              exact absurd h (by simp)
            | error e2 =>
              simp only [hop2] at h ⊢
              by_cases hr : r = 0
              · subst hr; simp
              · simp only [if_neg hr] at h ⊢
                have := ih (attempts + 1) (k + 2) _ _ e h
                omega
          | false =>
            simp only [hpw, Bool.false_eq_true, if_false] at h ⊢
            by_cases hr : r = 0
            · subst hr; simp
            · simp only [if_neg hr] at h ⊢
              have := ih (attempts + 1) (k + 1) _ _ e h
              omega
        · simp only [if_neg hfb] at h ⊢
          by_cases hr : r = 0
          · subst hr; simp
          · simp only [if_neg hr] at h ⊢
            have := ih (attempts + 1) (k + 1) _ _ e h
            omega

-- =====================================================
-- Claim theorems
-- =====================================================

/-- Claim C1 (vault round-trip): in the ideal-crypto model of
CryptoUtil, decrypting an encrypted blob with the encrypting passphrase
returns the original plaintext, and decrypting it with any other
passphrase fails with the tag-verification error message instead of
returning any data. -/
theorem C1_vault_round_trip :
    (∀ (data password : String) (salt iv : Nat),
      IdealCrypto.decrypt (IdealCrypto.encrypt data password salt iv) password =
        .ok data) ∧
    (∀ (data password password' : String) (salt iv : Nat), password' ≠ password →
      IdealCrypto.decrypt (IdealCrypto.encrypt data password salt iv) password' =
        .error "Failed to decrypt data - invalid password or corrupted data") := by
  constructor
  · intro data password salt iv
    simp [IdealCrypto.decrypt, IdealCrypto.encrypt, IdealCrypto.gcmDecrypt,
      IdealCrypto.deriveKey]
  · intro data password password' salt iv h
    simp [IdealCrypto.decrypt, IdealCrypto.encrypt, IdealCrypto.deriveKey, Ne.symm h]

/-- Witness for C1 at concrete plaintext, passphrases, salt and IV. -/
theorem C1_vault_round_trip_witness :
    IdealCrypto.decrypt (IdealCrypto.encrypt "session-record" "pass-a" 11 22) "pass-a" =
      .ok "session-record" ∧
    IdealCrypto.decrypt (IdealCrypto.encrypt "session-record" "pass-a" 11 22) "pass-b" =
      .error "Failed to decrypt data - invalid password or corrupted data" :=
  ⟨C1_vault_round_trip.1 "session-record" "pass-a" 11 22,
   C1_vault_round_trip.2 "session-record" "pass-a" "pass-b" 11 22 (by decide)⟩

/-- Claim C2 (health-state transition): from a handle that is healthy
with a zero failure counter, one and two recorded failures leave it
healthy, the third flips it to unhealthy (counter 3), and a single
recorded success resets any handle to counter 0 and healthy. -/
theorem C2_health_transition (s : StrategyEngine.EngineState) (t : Core.AdapterType)
    (hHealthy : (StrategyEngine.getAdapterState s t).healthy = true)
    (hFresh : (StrategyEngine.getAdapterState s t).consecutiveFailures = 0) :
    (StrategyEngine.getAdapterState (StrategyEngine.recordFailure s t) t).healthy = true ∧
    (StrategyEngine.getAdapterState
      (StrategyEngine.recordFailure (StrategyEngine.recordFailure s t) t) t).healthy = true ∧
    (StrategyEngine.getAdapterState
      (StrategyEngine.recordFailure (StrategyEngine.recordFailure
        (StrategyEngine.recordFailure s t) t) t) t).healthy = false ∧
    (StrategyEngine.getAdapterState
      (StrategyEngine.recordFailure (StrategyEngine.recordFailure
        (StrategyEngine.recordFailure s t) t) t) t).consecutiveFailures = 3 ∧
    (∀ (s' : StrategyEngine.EngineState) (t' : Core.AdapterType),
      (StrategyEngine.getAdapterState (StrategyEngine.recordSuccess s' t') t').consecutiveFailures
          = 0 ∧
      (StrategyEngine.getAdapterState (StrategyEngine.recordSuccess s' t') t').healthy = true) := by
  have h1 : StrategyEngine.getAdapterState (StrategyEngine.recordFailure s t) t =
      ⟨true, (StrategyEngine.getAdapterState s t).lastHealthCheck, 1⟩ := by
    rw [getAdapterState_recordFailure, hFresh]
    simp [hHealthy]
  have h2 : StrategyEngine.getAdapterState
      (StrategyEngine.recordFailure (StrategyEngine.recordFailure s t) t) t =
      ⟨true, (StrategyEngine.getAdapterState s t).lastHealthCheck, 2⟩ := by
    rw [getAdapterState_recordFailure, h1]
    simp
  have h3 : StrategyEngine.getAdapterState
      (StrategyEngine.recordFailure (StrategyEngine.recordFailure
        (StrategyEngine.recordFailure s t) t) t) t =
      ⟨false, (StrategyEngine.getAdapterState s t).lastHealthCheck, 3⟩ := by
    rw [getAdapterState_recordFailure, h2]
    simp
  refine ⟨by rw [h1], by rw [h2], by rw [h3], by rw [h3], ?_⟩
  intro s' t'
  constructor <;> simp [StrategyEngine.recordSuccess, getAdapterState_set]

/-- Witness for C2 on a concrete fresh engine and the HTTP handle. -/
theorem C2_health_transition_witness :
    (StrategyEngine.getAdapterState
      (StrategyEngine.recordFailure (StrategyEngine.recordFailure
        (StrategyEngine.recordFailure (StrategyEngine.freshEngine 3) Core.AdapterType.http)
          Core.AdapterType.http) Core.AdapterType.http) Core.AdapterType.http).healthy = false :=
  (C2_health_transition (StrategyEngine.freshEngine 3) Core.AdapterType.http
    (by decide) (by decide)).2.2.1

/-- Claim C5 (batch publish partial failure): publishResources always
returns one entry per input id — each item's own outcome on success, a
synthesized failed entry on failure, so one failure aborts nothing — and
its overall `success` is true exactly when every item succeeded; on
`["a","b","c"]` with "b" failing it returns 3 entries with "a" and "c"
successful, "b" failed, and overall success false. -/
theorem C5_batch_publish_partial_failure :
    (∀ (pub : String → Core.AdapterResult Core.PublishResult) (ids : List String),
      ((BaseAdapter.publishResources pub ids).data.getD []).length = ids.length ∧
      (BaseAdapter.publishResources pub ids).data =
        some (ids.map (Examples.publishEntry pub)) ∧
      (BaseAdapter.publishResources pub ids).success =
        ids.all (fun resourceId =>
          (pub resourceId).success && (pub resourceId).data.isSome)) ∧
    BaseAdapter.publishResources Examples.publishB ["a", "b", "c"] =
      { success := false
        data := some
          [⟨true, "a", some "https://example.com/a", none⟩,
           ⟨false, "b", none, some "publish failed"⟩,
           ⟨true, "c", some "https://example.com/c", none⟩]
        error := some "publish failed"
        errorCode := none } := by
  constructor
  · intro pub ids
    obtain ⟨hfst, hsnd⟩ := publishLoop_spec pub ids
    refine ⟨?_, ?_, ?_⟩
    · simp [BaseAdapter.publishResources, hfst]
    · simp [BaseAdapter.publishResources, hfst]
    · simp only [BaseAdapter.publishResources]
      exact hsnd
  · rfl

/-- Claim C10 (verifyIntegrity): every blob produced by encrypt carries
the 64-byte salt, 16-byte IV and 16-byte tag in front of the ciphertext,
so it is at least 96 bytes long and passes verifyIntegrity; and
verifyIntegrity accepts exactly the blobs of length at least 96,
independent of whether any tag verifies. -/
theorem C10_verify_integrity :
    (∀ (data : List Nat) (password : String) (salt iv : List Nat),
      salt.length = 64 → iv.length = 16 →
      96 ≤ (CryptoBytes.encrypt data password salt iv).length ∧
      CryptoBytes.verifyIntegrity (CryptoBytes.encrypt data password salt iv) = true) ∧
    (∀ blob : List Nat, CryptoBytes.verifyIntegrity blob = true ↔ 96 ≤ blob.length) := by
  have hlen : ∀ blob : List Nat, CryptoBytes.verifyIntegrity blob = true ↔ 96 ≤ blob.length := by
    intro blob
    by_cases h : blob.length < 96 <;>
      simp [CryptoBytes.verifyIntegrity, CryptoBytes.SALT_LENGTH, CryptoBytes.IV_LENGTH,
        CryptoBytes.TAG_LENGTH, h] <;>
      omega
  refine ⟨?_, hlen⟩
  intro data password salt iv hs hi
  have henc : (CryptoBytes.encrypt data password salt iv).length = 96 + data.length := by
    simp [CryptoBytes.encrypt, CryptoBytes.gcmTag, CryptoBytes.gcmEncrypt,
      CryptoBytes.TAG_LENGTH, hs, hi]
    omega
  exact ⟨by omega, (hlen _).2 (by omega)⟩

/-- Claim C3 (retry exhaustion): with retryAttempts = 3 and every
operation invocation failing, execute surfaces a failure whose error is
the final (third) main attempt's error — that attempt ran against the
then-current backend, HTTP, and the error of invocation number 4 is the
third main attempt's because each failed main attempt is followed by one
fallback invocation — with the attempts counter at exactly 3; and in
general execute returns an error only with the attempts counter at
maxAttempts, i.e. only by exhausting retryAttempts. -/
theorem C3_retry_exhaustion :
    (∀ (errs : Nat → Core.AdapterType → String),
      (StrategyEngine.execute (fun k a => (.error (errs k a) : Except String Unit))
        Examples.hcDown 0 true true (StrategyEngine.freshEngine 3)).result =
          .error (errs 4 Core.AdapterType.http) ∧
      (StrategyEngine.execute (fun k a => (.error (errs k a) : Except String Unit))
        Examples.hcDown 0 true true (StrategyEngine.freshEngine 3)).attempts = 3) ∧
    (∀ (α : Type) (op : Nat → Core.AdapterType → Except String α)
      (hc : Core.AdapterType → Core.HealthCheckResult) (now : Nat)
      (fb ro : Bool) (s : StrategyEngine.EngineState) (e : String),
      (StrategyEngine.execute op hc now fb ro s).result = .error e →
      (StrategyEngine.execute op hc now fb ro s).attempts =
        (if ro then s.retryAttempts else 1)) := by
  constructor
  · intro errs
    exact ⟨rfl, rfl⟩
  · intro α op hc now fb ro s e h
    have hgo := executeGo_error_attempts op hc now fb (if ro then s.retryAttempts else 1)
      0 0 [] s e
    simp only [StrategyEngine.execute] at h ⊢
    simpa using hgo h

/-- Witness for C3: a concrete always-failing operation exhausts a
3-attempt engine with its error surfaced, and the exhaustion conclusion
instantiated there. -/
theorem C3_retry_exhaustion_witness :
    (StrategyEngine.execute (fun _ _ => (.error "boom" : Except String Unit))
      Examples.hcDown 0 true true (StrategyEngine.freshEngine 3)).result = .error "boom" ∧
    (StrategyEngine.execute (fun _ _ => (.error "boom" : Except String Unit))
      Examples.hcDown 0 true true (StrategyEngine.freshEngine 3)).attempts =
      (if true then (StrategyEngine.freshEngine 3).retryAttempts else 1) :=
  ⟨(C3_retry_exhaustion.1 (fun _ _ => "boom")).1,
   C3_retry_exhaustion.2 Unit (fun _ _ => .error "boom") Examples.hcDown 0 true true
     (StrategyEngine.freshEngine 3) "boom" ((C3_retry_exhaustion.1 (fun _ _ => "boom")).1)⟩

/-- Claim C4 (auto-mode fallback routing): in AUTO mode with the HTTP
handle unhealthy and the Playwright handle healthy, selectBestAdapter
picks Playwright and memoizes it as currentAdapter, and execute then
runs the operation against Playwright first. -/
theorem C4_auto_mode_fallback {α : Type} (hc : Core.AdapterType → Core.HealthCheckResult)
    (now : Nat) (s : StrategyEngine.EngineState)
    (hmode : s.mode = StrategyEngine.StrategyMode.auto)
    (hhttp : s.httpState.healthy = false)
    (hpw : s.playwrightState.healthy = true)
    (hretry : 1 ≤ s.retryAttempts) :
    (StrategyEngine.selectBestAdapter hc now s).1 = Core.AdapterType.playwright ∧
    (StrategyEngine.selectBestAdapter hc now s).2.currentAdapter =
      some Core.AdapterType.playwright ∧
    (∀ (op : Nat → Core.AdapterType → Except String α) (v : α),
      op 0 Core.AdapterType.playwright = .ok v →
      (StrategyEngine.execute op hc now true true
        (StrategyEngine.selectBestAdapter hc now s).2).result = .ok v ∧
      (StrategyEngine.execute op hc now true true
        (StrategyEngine.selectBestAdapter hc now s).2).calls =
        [Core.AdapterType.playwright]) := by
  have hsel : StrategyEngine.selectBestAdapter hc now s =
      (Core.AdapterType.playwright,
        { s with currentAdapter := some Core.AdapterType.playwright }) := by
    simp [StrategyEngine.selectBestAdapter, StrategyEngine.candidateTypes, hmode,
      List.find?, StrategyEngine.getAdapterState, hhttp, hpw]
  refine ⟨by rw [hsel], by rw [hsel], ?_⟩
  intro op v hop
  rw [hsel]
  obtain ⟨m, hm⟩ : ∃ m, s.retryAttempts = m + 1 := by
    cases hr : s.retryAttempts with
    | zero => omega
    | succ m => exact ⟨m, rfl⟩
  constructor <;>
    simp [StrategyEngine.execute, StrategyEngine.executeGo, hm, hop]

/-- Witness for C4 on a concrete AUTO-mode engine with unhealthy HTTP. -/
theorem C4_auto_mode_fallback_witness :
    (StrategyEngine.selectBestAdapter Examples.hcDown 0 Examples.autoFallbackEngine).1 =
      Core.AdapterType.playwright ∧
    (StrategyEngine.execute (fun _ _ => (.ok 42 : Except String Nat)) Examples.hcDown 0
      true true
      (StrategyEngine.selectBestAdapter Examples.hcDown 0 Examples.autoFallbackEngine).2).result =
      .ok 42 :=
  ⟨(C4_auto_mode_fallback (α := Nat) Examples.hcDown 0 Examples.autoFallbackEngine
      rfl rfl rfl (by decide)).1,
   ((C4_auto_mode_fallback (α := Nat) Examples.hcDown 0 Examples.autoFallbackEngine
      rfl rfl rfl (by decide)).2.2 (fun _ _ => .ok 42) 42 rfl).1⟩

/-- Claim C9 (failures returned as values count as successes): when the
operation resolves with an AdapterResult whose success field is false —
rather than rejecting — execute records a success on the current handle
(counter reset to 0, healthy true), makes no fallback or retry
invocation, and returns that result as its successful value. -/
theorem C9_value_failure_recorded_as_success {α : Type} (r : Core.AdapterResult α)
    (hr : r.success = false) (hc : Core.AdapterType → Core.HealthCheckResult)
    (now : Nat) (s : StrategyEngine.EngineState) (t : Core.AdapterType)
    (hcur : s.currentAdapter = some t) (m : Nat) (hra : s.retryAttempts = m + 1) :
    (StrategyEngine.execute (fun _ _ => .ok r) hc now true true s).result = .ok r ∧
    (StrategyEngine.execute (fun _ _ => .ok r) hc now true true s).state =
      StrategyEngine.recordSuccess s t ∧
    (StrategyEngine.execute (fun _ _ => .ok r) hc now true true s).calls = [t] ∧
    (StrategyEngine.execute (fun _ _ => .ok r) hc now true true s).attempts = 0 ∧
    (StrategyEngine.getAdapterState
      ((StrategyEngine.execute (fun _ _ => .ok r) hc now true true s).state) t).consecutiveFailures
        = 0 ∧
    (StrategyEngine.getAdapterState
      ((StrategyEngine.execute (fun _ _ => .ok r) hc now true true s).state) t).healthy
        = true := by
  have hexe : StrategyEngine.execute (fun _ _ => (.ok r : Except String (Core.AdapterResult α)))
      hc now true true s =
      ⟨.ok r, StrategyEngine.recordSuccess s t, [t], 0⟩ := by
    simp [StrategyEngine.execute, StrategyEngine.executeGo, hra, hcur]
  rw [hexe]
  refine ⟨rfl, rfl, rfl, rfl, ?_, ?_⟩ <;>
    simp [StrategyEngine.recordSuccess, getAdapterState_set]

/-- Witness for C9: a concrete `BaseAdapter.failure` value returned by
the operation is treated as a success by a fresh engine. -/
theorem C9_value_failure_recorded_as_success_witness :
    (StrategyEngine.execute
      (fun _ _ => .ok (BaseAdapter.failure "network timeout" none : Core.AdapterResult Nat))
      Examples.hcDown 0 true true (StrategyEngine.freshEngine 3)).result =
      .ok (BaseAdapter.failure "network timeout" none) ∧
    (StrategyEngine.execute
      (fun _ _ => .ok (BaseAdapter.failure "network timeout" none : Core.AdapterResult Nat))
      Examples.hcDown 0 true true (StrategyEngine.freshEngine 3)).attempts = 0 :=
  ⟨(C9_value_failure_recorded_as_success (BaseAdapter.failure "network timeout" none) rfl
      Examples.hcDown 0 (StrategyEngine.freshEngine 3) Core.AdapterType.http rfl 2 rfl).1,
   (C9_value_failure_recorded_as_success (BaseAdapter.failure "network timeout" none) rfl
      Examples.hcDown 0 (StrategyEngine.freshEngine 3) Core.AdapterType.http rfl 2 rfl).2.2.2.1⟩

/-- Counterexample to claim C6 as stated: corrupting the single byte at
index 99 — strictly inside the ciphertext region, which starts at offset
96 — of a stored vault blob makes `load()` return null, but the file is
NOT deleted (the file state after the call still holds the corrupted
blob), because the corruption preserves the blob's length and
verifyIntegrity is only a length check; the uncorrupted blob loads
successfully, so the corruption alone caused the failure. -/
theorem C6_corrupt_blob_counterexample :
    TokenStorage.load (some Examples.exampleCorruptBlob) Examples.examplePassword =
      (none, some Examples.exampleCorruptBlob) ∧
    Examples.exampleCorruptBlob.length = Examples.exampleBlob.length ∧
    Examples.exampleCorruptBlob.take 99 = Examples.exampleBlob.take 99 ∧
    Examples.exampleCorruptBlob.drop 100 = Examples.exampleBlob.drop 100 ∧
    Examples.exampleCorruptBlob.getD 99 0 ≠ Examples.exampleBlob.getD 99 0 ∧
    TokenStorage.load (some Examples.exampleBlob) Examples.examplePassword =
      (some Examples.examplePlain, some Examples.exampleBlob) :=
  ⟨by rfl, by rfl, by rfl, by rfl, by decide, by rfl⟩

/-- Claim C6 as amended: `load()` on a corrupted blob returns null
without an exception escaping, but the file is deleted only when the
cheap integrity pre-check (a minimum-length check) fails; when the
corruption preserves the length — as a one-byte change in the middle of
the ciphertext does — decryption fails, the failure is caught, null is
returned and the corrupted file remains on disk. -/
theorem C6_corrupt_blob_amended :
    (∀ (blob : List Nat) (password : String),
      CryptoBytes.verifyIntegrity blob = false →
      TokenStorage.load (some blob) password = (none, none)) ∧
    (∀ (blob : List Nat) (password e : String),
      CryptoBytes.verifyIntegrity blob = true →
      CryptoBytes.decrypt blob password = .error e →
      TokenStorage.load (some blob) password = (none, some blob)) := by
  constructor
  · intro blob password h
    simp [TokenStorage.load, h]
  · intro blob password e h1 h2
    simp [TokenStorage.load, h1, h2]

/-- Witness for the amended C6 at the concretely corrupted blob. -/
theorem C6_corrupt_blob_amended_witness :
    TokenStorage.load (some Examples.exampleCorruptBlob) Examples.examplePassword =
      (none, some Examples.exampleCorruptBlob) :=
  C6_corrupt_blob_amended.2 Examples.exampleCorruptBlob Examples.examplePassword
    "Failed to decrypt data - invalid password or corrupted data" (by rfl) (by rfl)

/-- Counterexample to claim C7 as stated: on an engine whose HTTP handle
is cached healthy while the adapter itself would fail a probe (`hcDown`
reports unhealthy), forceAdapter succeeds and switches currentAdapter to
HTTP without performing any probe — the returned state is unchanged
except for currentAdapter, in particular the handle's lastHealthCheck
was not updated to `now` — instead of failing with the "not healthy"
error. -/
theorem C7_force_adapter_counterexample :
    StrategyEngine.forceAdapter Examples.hcDown 5 Core.AdapterType.http
      Examples.staleEngine =
      .ok { Examples.staleEngine with currentAdapter := some Core.AdapterType.http } ∧
    (Examples.hcDown Core.AdapterType.http).healthy = false ∧
    Examples.staleEngine.httpState.healthy = true ∧
    Examples.staleEngine.httpState.lastHealthCheck = 0 :=
  ⟨by rfl, by rfl, by rfl, by rfl⟩

/-- Claim C7 as amended: forceAdapter probes the target only when its
handle's cached healthy flag is false — in that case an unhealthy probe
makes it fail with the explicit "not healthy" error, leaving
currentAdapter unchanged, and a healthy probe lets it switch; when the
cached flag is true it switches immediately without probing. -/
theorem C7_force_adapter_amended (hc : Core.AdapterType → Core.HealthCheckResult)
    (now : Nat) (t : Core.AdapterType) (s : StrategyEngine.EngineState) :
    ((StrategyEngine.getAdapterState s t).healthy = true →
      StrategyEngine.forceAdapter hc now t s = .ok { s with currentAdapter := some t }) ∧
    ((StrategyEngine.getAdapterState s t).healthy = false → (hc t).healthy = false →
      StrategyEngine.forceAdapter hc now t s =
        .error ("Adapter " ++ Core.adapterName t ++ " is not healthy")) ∧
    ((StrategyEngine.getAdapterState s t).healthy = false → (hc t).healthy = true →
      StrategyEngine.forceAdapter hc now t s =
        .ok { (StrategyEngine.checkAdapterHealth hc now t s).2
              with currentAdapter := some t }) := by
  refine ⟨?_, ?_, ?_⟩
  · intro h
    simp [StrategyEngine.forceAdapter, h]
  · intro h1 h2
    simp [StrategyEngine.forceAdapter, StrategyEngine.checkAdapterHealth, h1, h2]
  · intro h1 h2
    simp [StrategyEngine.forceAdapter, StrategyEngine.checkAdapterHealth, h1, h2]

/-- Witness for the amended C7: forcing the unhealthy HTTP handle of a
concrete engine while its probe keeps failing raises the explicit
"not healthy" error. -/
theorem C7_force_adapter_amended_witness :
    StrategyEngine.forceAdapter Examples.hcDown 5 Core.AdapterType.http
      Examples.autoFallbackEngine = .error "Adapter http is not healthy" :=
  (C7_force_adapter_amended Examples.hcDown 5 Core.AdapterType.http
    Examples.autoFallbackEngine).2.1 (by rfl) (by rfl)

/-- Claim C8 (login short-circuit): with force = false and a session
store that passes `hasValidSession`, AuthManager.login reports success
with the `{userId, userName}` restored from the stored user-info file,
and invokes no backend login flow (the third component is the
browser-launched flag, false on this path). -/
theorem C8_login_short_circuit (flows : Auth.LoginMethod → Bool × Option Auth.UserInfo)
    (method : Auth.LoginMethod) (m : Auth.AuthManagerState) (u : Auth.UserInfo)
    (h1 : Auth.hasValidSession m.storage = true)
    (h2 : Auth.loadUserInfo m.storage = some u) :
    Auth.login flows false method m =
      (⟨true, some u.userId, some u.userName, none⟩,
        { m with userInfo := some u }, false) := by
  simp [Auth.login, h1, h2]

/-- Witness for C8 on a concrete valid session store, with flows that
would have produced a different user had they been consulted. -/
theorem C8_login_short_circuit_witness :
    Auth.login Examples.exampleFlows false Auth.LoginMethod.qrCode
      ⟨Examples.validStore, none⟩ =
      (⟨true, some "u1", some "Alice", none⟩,
        ⟨Examples.validStore, some ⟨"u1", "Alice"⟩⟩, false) :=
  C8_login_short_circuit Examples.exampleFlows Auth.LoginMethod.qrCode
    ⟨Examples.validStore, none⟩ ⟨"u1", "Alice"⟩ (by rfl) (by rfl)

/-- Witness for C10 at a concrete plaintext, passphrase, salt and IV. -/
theorem C10_verify_integrity_witness :
    96 ≤ (CryptoBytes.encrypt Examples.examplePlain Examples.examplePassword
      Examples.exampleSalt Examples.exampleIv).length ∧
    CryptoBytes.verifyIntegrity (CryptoBytes.encrypt Examples.examplePlain
      Examples.examplePassword Examples.exampleSalt Examples.exampleIv) = true ∧
    (CryptoBytes.verifyIntegrity Examples.exampleBlob = true ↔
      96 ≤ Examples.exampleBlob.length) :=
  ⟨(C10_verify_integrity.1 Examples.examplePlain Examples.examplePassword
      Examples.exampleSalt Examples.exampleIv (by decide) (by decide)).1,
   (C10_verify_integrity.1 Examples.examplePlain Examples.examplePassword
      Examples.exampleSalt Examples.exampleIv (by decide) (by decide)).2,
   C10_verify_integrity.2 Examples.exampleBlob⟩
